import Mathlib

/-!
# Verification of the Telegram AI bot (`src/main.py`)

A shallow embedding of the bot's five handlers (`start`, `handle_contact`,
`gemini_chat`, `analyze_file`, `web_search`) and the module-level
configuration code, together with theorems settling the spec's claims.

The document store is modelled as four lists (the four Mongo collections);
each handler is a pure function from the inbound event, the results of the
external gateway calls (passed in as `Except Unit _` values, `Except.error`
standing for a raised exception), and the current store to the new store
plus the reply text sent back to the sender.
-/

set_option autoImplicit false

namespace TelegramBot

/-- A Telegram sender as seen by the handlers: `update.message.from_user`.
`username` is `none` when the account has no username (Python `None`). -/
structure TgUser where
  id : Nat
  first_name : String
  username : Option String
  deriving DecidableEq

/-- A document in the `users` collection. `phone_number` is absent until a
contact is shared. -/
structure UserRecord where
  chat_id : Nat
  first_name : String
  username : String
  phone_number : Option String
  deriving DecidableEq

/-- A document in the `chat_history` collection (`db.chat_history.insert_one`
in `gemini_chat`). -/
structure ChatRecord where
  chat_id : Nat
  first_name : String
  username : String
  user_message : String
  bot_response : String
  timestamp : Nat
  deriving DecidableEq

/-- A document in the `file_analysis` collection (`db.file_analysis.insert_one`
in `analyze_file`). -/
structure FileAnalysisRecord where
  chat_id : Nat
  first_name : String
  username : String
  file_name : String
  analysis : String
  timestamp : Nat
  deriving DecidableEq

/-- A document in the `web_search` collection (`db.web_search.insert_one`
in `web_search`). -/
structure WebSearchRecord where
  chat_id : Nat
  first_name : String
  username : String
  query : String
  results : String
  timestamp : Nat
  deriving DecidableEq

/-- The document database `db = client["telegram_bot"]` with its four
collections. -/
structure DB where
  users : List UserRecord
  chat_history : List ChatRecord
  file_analysis : List FileAnalysisRecord
  web_search : List WebSearchRecord
  deriving DecidableEq

/-- Python `user.username if user.username else "N/A"`: both `None` and the
empty string are falsy, so either one yields the literal `"N/A"`. -/
def usernameOrNA : Option String → String
  | none => "N/A"
  | some s => if s = "" then "N/A" else s

/-! ## Registration handler (`start`, src/main.py lines 31-46) -/

/-- The `$set` document of the registration upsert: sets `first_name`,
`username` and `chat_id` on an existing matching document. -/
def applyStartSet (u : TgUser) (r : UserRecord) : UserRecord :=
  { r with first_name := u.first_name, username := usernameOrNA u.username,
           chat_id := u.id }

/-- The document inserted by the registration upsert when no document matches
`{"chat_id": user.id}`: the filter's key plus the `$set` fields.
`phone_number` is not set by this write. -/
def startDoc (u : TgUser) : UserRecord :=
  { chat_id := u.id, first_name := u.first_name,
    username := usernameOrNA u.username, phone_number := none }

/-- Lines 36-40: `db.users.update_one({"chat_id": user.id}, {"$set": ...},
upsert=True)` — update the first document whose `chat_id` matches, or insert
a fresh one when none does. -/
def upsertUser (u : TgUser) : List UserRecord → List UserRecord
  | [] => [startDoc u]
  | r :: rs =>
    if r.chat_id = u.id then applyStartSet u r :: rs
    else r :: upsertUser u rs

/-- The reply text of the registration handler. -/
def WELCOME_TEXT : String := "Welcome! Please share your contact."

/-- The `start` handler: upsert the sender into `users` and reply with the
welcome message (the contact-request keyboard is UI-only and carries no
state). -/
def start (u : TgUser) (db : DB) : DB × String :=
  ({ db with users := upsertUser u db.users }, WELCOME_TEXT)

/-! ## Contact capture handler (`handle_contact`, src/main.py lines 49-56) -/

/-- Line 52: `db.users.update_one({"chat_id": chat_id}, {"$set":
{"phone_number": p}})` with no `upsert` flag — set `phone_number` on the first
matching document, and do nothing at all when none matches. -/
def updatePhone (cid : Nat) (phone : String) : List UserRecord → List UserRecord
  | [] => []
  | r :: rs =>
    if r.chat_id = cid then { r with phone_number := some phone } :: rs
    else r :: updatePhone cid phone rs

/-- The reply text of the contact handler's success path. -/
def CONTACT_THANKS : String := "Thank you for sharing your contact!"

/-- The `handle_contact` handler: update (never insert) the matching user's
`phone_number` and thank the sender. -/
def handle_contact (cid : Nat) (phone : String) (db : DB) : DB × String :=
  ({ db with users := updatePhone cid phone db.users }, CONTACT_THANKS)

/-! ## Chat reply handler (`gemini_chat`, src/main.py lines 59-84) -/

/-- Fallback used when `response.text` is empty (falsy) in `gemini_chat`. -/
def CHAT_FALLBACK : String := "Sorry, I couldn't process that."

/-- Apology sent when the `try` block of `gemini_chat` raises. -/
def CHAT_APOLOGY : String := "Sorry, something went wrong. Please try again later."

/-- The `gemini_chat` handler. `gen` is the outcome of
`model.generate_content(user_message)`: `Except.ok t` when the call returns a
response with text `t`, `Except.error ()` when it raises. On success the
response text (or the fallback when it is empty) is stored in one new
`chat_history` document and echoed as the reply; on a raise the store is left
untouched and the generic apology is the reply. -/
def gemini_chat (gen : Except Unit String) (u : TgUser) (user_message : String)
    (now : Nat) (db : DB) : DB × String :=
  match gen with
  | Except.error _ => (db, CHAT_APOLOGY)
  | Except.ok t =>
    let bot_response := if t = "" then CHAT_FALLBACK else t
    ({ db with chat_history := db.chat_history ++
        [{ chat_id := u.id, first_name := u.first_name,
           username := usernameOrNA u.username, user_message := user_message,
           bot_response := bot_response, timestamp := now }] },
     bot_response)

/-! ## Image analysis handler (`analyze_file`, src/main.py lines 87-118) -/

/-- A photo size variant (`update.message.photo` is a list of these). -/
structure PhotoSize where
  file_id : String
  deriving DecidableEq

/-- A document attachment (`update.message.document`). -/
structure TgDocument where
  file_id : String
  deriving DecidableEq

/-- The attachment content of the inbound message for `analyze_file`. -/
structure AttachMsg where
  document : Option TgDocument
  photo : List PhotoSize
  deriving DecidableEq

/-- Line 89: `update.message.document.file_id if update.message.document else
update.message.photo[-1].file_id`. A `Document` object is truthy, so a present
document wins; otherwise Python indexes the last photo variant, raising
`IndexError` (modelled as `none`) when the photo list is empty. -/
def chooseFileId (m : AttachMsg) : Option String :=
  match m.document with
  | some d => some d.file_id
  | none => (m.photo.getLast?).map PhotoSize.file_id

/-- Line 95: the local file name `f"downloads/{file_id}.jpg"`. -/
def localFileName (fid : String) : String := "downloads/" ++ fid ++ ".jpg"

/-- Fallback used when `image_response.text` is empty in `analyze_file`. -/
def ANALYZE_FALLBACK : String := "Couldn't analyze the image."

/-- Apology sent when the `try` block of `analyze_file` raises. -/
def ANALYZE_APOLOGY : String := "Sorry, I couldn't analyze this image."

/-- Reply prefix of `analyze_file`'s success path. -/
def ANALYZE_HEADER : String := "🖼 Image Analysis:\n"

/-- The `analyze_file` handler. `fetch` is the outcome of the network download
(`context.bot.get_file` + `requests.get`), which happens *outside* the `try`
block; `gen` is the outcome of `model.generate_content([...])`, inside it.
The result is `Except.error db` when an exception escapes the handler (file-id
resolution or download failure): the store is unchanged and no reply is sent.
`Except.ok (db2, reply)` is a completed dispatch with new store `db2` and the
reply text. -/
def analyze_file (fetch : Except Unit String) (gen : Except Unit String)
    (u : TgUser) (m : AttachMsg) (now : Nat) (db : DB) :
    Except DB (DB × String) :=
  match chooseFileId m with
  | none => Except.error db
  | some fid =>
    match fetch with
    | Except.error _ => Except.error db
    | Except.ok _ =>
      let file_name := localFileName fid
      match gen with
      | Except.error _ => Except.ok (db, ANALYZE_APOLOGY)
      | Except.ok t =>
        let analysis_text := if t = "" then ANALYZE_FALLBACK else t
        Except.ok
          ({ db with file_analysis := db.file_analysis ++
              [{ chat_id := u.id, first_name := u.first_name,
                 username := usernameOrNA u.username, file_name := file_name,
                 analysis := analysis_text, timestamp := now }] },
           ANALYZE_HEADER ++ analysis_text)

/-! ## Web search handler (`web_search`, src/main.py lines 121-149) -/

/-- One search result `{title, url}` from the Search Gateway. -/
structure SearchResult where
  title : String
  url : String
  deriving DecidableEq

/-- Line 123: `" ".join(context.args)`. -/
def joinArgs (args : List String) : String := String.intercalate " " args

/-- The 1-indexed lines of line 132's list comprehension, generalized over the
starting index of `enumerate`. -/
def formatLines : Nat → List SearchResult → List String
  | _, [] => []
  | i, r :: rs => (Nat.repr (i + 1) ++ ". " ++ r.title ++ " - " ++ r.url)
      :: formatLines (i + 1) rs

/-- Line 132: `"\n".join([f"{i+1}. {title} - {url}" ...])`. -/
def summaryOf (rs : List SearchResult) : String :=
  String.intercalate "\n" (formatLines 0 rs)

/-- Reply for an empty query (line 126). -/
def USAGE_TEXT : String := "Usage: /websearch <query>"

/-- Apology sent when the `try` block of `web_search` raises. -/
def SEARCH_APOLOGY : String := "Sorry, I couldn't perform the search."

/-- Reply of `web_search`'s success path (line 145). -/
def searchReply (query summary : String) : String :=
  "🔎 Web Search Results for: " ++ query ++ "\n\n" ++ summary

/-- The `web_search` handler. `searchFn` is the Search Gateway; the third
component of the result is the list of queries actually submitted to it, so
that "the gateway is not called" is expressible. An empty joined query is
falsy: the usage hint is sent and the handler returns before any gateway call
or write. -/
def web_search (searchFn : String → Except Unit (List SearchResult))
    (u : TgUser) (args : List String) (now : Nat) (db : DB) :
    DB × String × List String :=
  let query := joinArgs args
  if query = "" then (db, USAGE_TEXT, [])
  else
    match searchFn query with
    | Except.error _ => (db, SEARCH_APOLOGY, [query])
    | Except.ok search_results =>
      let summary := summaryOf search_results
      ({ db with web_search := db.web_search ++
          [{ chat_id := u.id, first_name := u.first_name,
             username := usernameOrNA u.username, query := query,
             results := summary, timestamp := now }] },
       searchReply query summary, [query])

/-! ## Module-level configuration (src/main.py lines 13-24) -/

/-- The three values read from the environment at import time. Each is
`none` when the variable is absent: `os.getenv` is called with no default
argument. -/
structure Config where
  TELEGRAM_BOT_TOKEN : Option String
  MONGODB_URI : Option String
  GEMINI_API_KEY : Option String
  deriving DecidableEq

/-- Lines 14-16: the three `os.getenv` reads. -/
def loadConfig (env : String → Option String) : Config :=
  { TELEGRAM_BOT_TOKEN := env "TELEGRAM_BOT_TOKEN",
    MONGODB_URI := env "MONGODB_URI",
    GEMINI_API_KEY := env "GEMINI_API_KEY" }

/-- The module-level initialization (lines 13-24) as far as the repository's
own code goes: read the three values and hand them, unchecked, to
`genai.configure`, `MongoClient` and later `ApplicationBuilder`. The source
contains no presence test and no early exit, so this function never reports a
configuration error — the `Except` layer records exactly that absence of any
value is not detected by this code. -/
def moduleInit (env : String → Option String) : Except String Config :=
  Except.ok (loadConfig env)

/-- An environment with every variable absent. -/
def emptyEnv : String → Option String := fun _ => none

/-- Every persisted `username` field, in every collection, is a non-empty
string. -/
def usernamesOK (db : DB) : Prop :=
  (∀ r ∈ db.users, r.username ≠ "") ∧
  (∀ r ∈ db.chat_history, r.username ≠ "") ∧
  (∀ r ∈ db.file_analysis, r.username ≠ "") ∧
  (∀ r ∈ db.web_search, r.username ≠ "")

/-! ## Theorems -/

/-- Claim C1: for a plain text message on which the AI gateway returns text
`t`, exactly one `ChatRecord` is appended to `chat_history` (all other
collections unchanged); its `user_message` is the input text and its
`bot_response` is `t` when `t` is non-empty and the fixed fallback
`"Sorry, I couldn't process that."` when `t` is empty; the reply sent to the
sender equals that `bot_response`. -/
theorem gemini_chat_success_spec (t : String) (u : TgUser) (msg : String)
    (now : Nat) (db : DB) :
    gemini_chat (Except.ok t) u msg now db =
      ({ db with chat_history := db.chat_history ++
          [{ chat_id := u.id, first_name := u.first_name,
             username := usernameOrNA u.username, user_message := msg,
             bot_response := if t = "" then CHAT_FALLBACK else t,
             timestamp := now }] },
       if t = "" then CHAT_FALLBACK else t) := rfl

/-- Claim C2: when the AI gateway raises on a text message, the reply is the
fixed generic apology and the database is completely unchanged — no
`ChatRecord` is created at all. -/
theorem gemini_chat_error_spec (u : TgUser) (msg : String) (now : Nat)
    (db : DB) :
    gemini_chat (Except.error ()) u msg now db = (db, CHAT_APOLOGY) := rfl

/-- Claim C4: when the `/websearch` arguments join to the empty string, the
reply is the fixed usage string, the database is unchanged, and the Search
Gateway receives no call (the trace of submitted queries is empty). -/
theorem web_search_empty_query_spec
    (searchFn : String → Except Unit (List SearchResult)) (u : TgUser)
    (args : List String) (now : Nat) (db : DB) (h : joinArgs args = "") :
    web_search searchFn u args now db = (db, USAGE_TEXT, []) := by
  simp [web_search, h]

/-- Witness for C4: the concrete `/websearch` event with no arguments. -/
theorem web_search_empty_query_witness :
    web_search (fun _ => Except.ok []) ⟨1, "Ann", none⟩ [] 0 ⟨[], [], [], []⟩ =
      (⟨[], [], [], []⟩, USAGE_TEXT, []) :=
  web_search_empty_query_spec (fun _ => Except.ok []) ⟨1, "Ann", none⟩ [] 0
    ⟨[], [], [], []⟩ rfl

/-- Claim C7: in `analyze_file`, a failure while fetching the attachment bytes
(which happens outside the `try` block) is not caught: the dispatch aborts
with the store unchanged and no reply. An AI-gateway failure during analysis
(inside the `try` block) is caught and answered with the fixed apology, again
with no `FileAnalysisRecord` written. -/
theorem analyze_file_error_spec (c : String) (g : Except Unit String)
    (u : TgUser) (m : AttachMsg) (now : Nat) (db : DB) (fid : String)
    (h : chooseFileId m = some fid) :
    analyze_file (Except.error ()) g u m now db = Except.error db ∧
    analyze_file (Except.ok c) (Except.error ()) u m now db =
      Except.ok (db, ANALYZE_APOLOGY) := by
  constructor <;> simp [analyze_file, h]

/-- Witness for C7: a concrete photo message, with a download failure in the
first conjunct and an analysis failure in the second. -/
theorem analyze_file_error_witness :
    analyze_file (Except.error ()) (Except.ok "a cat") ⟨3, "Cleo", none⟩
        ⟨none, [⟨"ph1"⟩]⟩ 0 ⟨[], [], [], []⟩ = Except.error ⟨[], [], [], []⟩ ∧
    analyze_file (Except.ok "bytes") (Except.error ()) ⟨3, "Cleo", none⟩
        ⟨none, [⟨"ph1"⟩]⟩ 0 ⟨[], [], [], []⟩ =
      Except.ok (⟨[], [], [], []⟩, ANALYZE_APOLOGY) :=
  analyze_file_error_spec "bytes" (Except.ok "a cat") ⟨3, "Cleo", none⟩
    ⟨none, [⟨"ph1"⟩]⟩ 0 ⟨[], [], [], []⟩ "ph1" rfl

/-- Counterexample to claim C8: with all three configuration variables absent
from the environment, the module-level configuration code of `src/main.py`
completes without any fatal error — it performs no presence check, so the
process does not fail fast before serving events. -/
theorem moduleInit_absent_counterexample :
    moduleInit emptyEnv =
      Except.ok { TELEGRAM_BOT_TOKEN := none, MONGODB_URI := none,
                  GEMINI_API_KEY := none } := rfl

/-- Claim C8 (amended): the three configuration values are read from the
environment with no default values — each `Config` field is `none` exactly
when its variable is absent — but the repository's startup code performs no
presence validation: for every environment it completes successfully, passing
the possibly-absent values unchecked to the client constructors, so absence is
not a startup-time fatal condition detected by this code. -/
theorem moduleInit_amended_spec (env : String → Option String) :
    moduleInit env = Except.ok (loadConfig env) ∧
    ((loadConfig env).TELEGRAM_BOT_TOKEN = none ↔ env "TELEGRAM_BOT_TOKEN" = none) ∧
    ((loadConfig env).MONGODB_URI = none ↔ env "MONGODB_URI" = none) ∧
    ((loadConfig env).GEMINI_API_KEY = none ↔ env "GEMINI_API_KEY" = none) :=
  ⟨rfl, Iff.rfl, Iff.rfl, Iff.rfl⟩

/-- Lemma: `formatLines` produces one line per search result. -/
theorem formatLines_length (k : Nat) (rs : List SearchResult) :
    (formatLines k rs).length = rs.length := by
  induction rs generalizing k with
  | nil => rfl
  | cons r rs ih => simp [formatLines, ih]

/-- The `i`-th line produced by `formatLines k` carries index `k + i + 1` and
the `i`-th result's title and url. -/
theorem formatLines_getElem (k : Nat) (rs : List SearchResult) (i : Nat)
    (h : i < rs.length) :
    (formatLines k rs)[i]? =
      some (Nat.repr (k + i + 1) ++ ". " ++ (rs.get ⟨i, h⟩).title ++ " - " ++
        (rs.get ⟨i, h⟩).url) := by
  induction rs generalizing k i with
  | nil => simp at h
  | cons r rs ih =>
    cases i with
    | zero => simp [formatLines]
    | succ j =>
      have hj : j < rs.length := by simpa using h
      have := ih (k + 1) j hj
      simp only [formatLines, List.getElem?_cons_succ, List.get]
      rw [this]
      have : k + 1 + j + 1 = k + (j + 1) + 1 := by omega
      rw [this]

/-- Claim C3: for a `/websearch` command whose arguments join to a non-empty
query on which the Search Gateway returns `rs`, exactly one `WebSearchRecord`
is appended (all other collections unchanged) with `query` equal to the joined
argument text and `results` equal to the newline-separated, 1-indexed
formatting of `rs`; the reply sends that same formatted summary under the
labeled header; and the formatted summary has one `"<i+1>. <title> - <url>"`
line per result, in gateway order. -/
theorem web_search_success_spec
    (searchFn : String → Except Unit (List SearchResult)) (u : TgUser)
    (args : List String) (now : Nat) (db : DB) (rs : List SearchResult)
    (hq : joinArgs args ≠ "") (hres : searchFn (joinArgs args) = Except.ok rs) :
    web_search searchFn u args now db =
      ({ db with web_search := db.web_search ++
          [{ chat_id := u.id, first_name := u.first_name,
             username := usernameOrNA u.username, query := joinArgs args,
             results := summaryOf rs, timestamp := now }] },
       searchReply (joinArgs args) (summaryOf rs), [joinArgs args]) ∧
    summaryOf rs = String.intercalate "\n" (formatLines 0 rs) ∧
    (formatLines 0 rs).length = rs.length ∧
    (∀ i (h : i < rs.length), (formatLines 0 rs)[i]? =
      some (Nat.repr (i + 1) ++ ". " ++ (rs.get ⟨i, h⟩).title ++ " - " ++
        (rs.get ⟨i, h⟩).url)) := by
  refine ⟨?_, rfl, formatLines_length 0 rs, ?_⟩
  · simp [web_search, hq, hres]
  · intro i h
    simpa using formatLines_getElem 0 rs i h

/-- Witness for C3: `/websearch hello world` with a two-result gateway. -/
theorem web_search_success_witness :
    (web_search
        (fun _ => Except.ok [⟨"Lean", "lean-lang.org"⟩, ⟨"Mathlib", "leanprover-community.github.io"⟩])
        ⟨7, "Bob", some "bob"⟩ ["hello", "world"] 5 ⟨[], [], [], []⟩).2.1 =
      searchReply "hello world"
        (summaryOf [⟨"Lean", "lean-lang.org"⟩, ⟨"Mathlib", "leanprover-community.github.io"⟩]) := by
  have h := web_search_success_spec
    (fun _ => Except.ok [⟨"Lean", "lean-lang.org"⟩, ⟨"Mathlib", "leanprover-community.github.io"⟩])
    ⟨7, "Bob", some "bob"⟩ ["hello", "world"] 5 ⟨[], [], [], []⟩
    [⟨"Lean", "lean-lang.org"⟩, ⟨"Mathlib", "leanprover-community.github.io"⟩]
    (by decide) rfl
  rw [h.1]
  rfl

/-- Claim C10: when the attachment message carries a document, the chosen file
id is the document's, regardless of any photo variants; only when no document
is present is the last (highest-resolution) photo variant's file id used; and
the persisted `file_name` of a completed analysis is `downloads/<id>.jpg`
built from the chosen id — hence from the document id whenever one exists. -/
theorem analyze_file_file_id_spec (c t : String) (u : TgUser) (m : AttachMsg)
    (now : Nat) (db : DB) :
    (∀ d, m.document = some d → chooseFileId m = some d.file_id) ∧
    (∀ p ps, m.document = none → m.photo = ps ++ [p] →
      chooseFileId m = some p.file_id) ∧
    (∀ fid, chooseFileId m = some fid →
      analyze_file (Except.ok c) (Except.ok t) u m now db =
        Except.ok
          ({ db with file_analysis := db.file_analysis ++
              [{ chat_id := u.id, first_name := u.first_name,
                 username := usernameOrNA u.username,
                 file_name := localFileName fid,
                 analysis := if t = "" then ANALYZE_FALLBACK else t,
                 timestamp := now }] },
           ANALYZE_HEADER ++ (if t = "" then ANALYZE_FALLBACK else t))) := by
  refine ⟨?_, ?_, ?_⟩
  · intro d hd
    simp [chooseFileId, hd]
  · intro p ps h0 hp
    simp [chooseFileId, h0, hp]
  · intro fid hfid
    simp [analyze_file, hfid]

/-- Witness for C10: a message carrying both a document and a photo variant
uses the document's file id end to end. -/
theorem analyze_file_file_id_witness :
    chooseFileId ⟨some ⟨"doc9"⟩, [⟨"p1"⟩]⟩ = some "doc9" ∧
    analyze_file (Except.ok "bytes") (Except.ok "a dog") ⟨2, "Al", none⟩
        ⟨some ⟨"doc9"⟩, [⟨"p1"⟩]⟩ 1 ⟨[], [], [], []⟩ =
      Except.ok
        (⟨[], [], [⟨2, "Al", "N/A", localFileName "doc9", "a dog", 1⟩], []⟩,
         ANALYZE_HEADER ++ "a dog") := by
  have h := analyze_file_file_id_spec "bytes" "a dog" ⟨2, "Al", none⟩
    ⟨some ⟨"doc9"⟩, [⟨"p1"⟩]⟩ 1 ⟨[], [], [], []⟩
  exact ⟨h.1 ⟨"doc9"⟩ rfl, h.2.2 "doc9" (h.1 ⟨"doc9"⟩ rfl)⟩

/-- Lemma: `updatePhone` never changes the number of user documents. -/
theorem updatePhone_length (cid : Nat) (phone : String)
    (users : List UserRecord) :
    (updatePhone cid phone users).length = users.length := by
  induction users with
  | nil => rfl
  | cons r rs ih => by_cases h : r.chat_id = cid <;> simp [updatePhone, h, ih]

/-- Lemma: `updatePhone` is the identity when no document matches the chat
id. -/
theorem updatePhone_of_no_match (cid : Nat) (phone : String)
    (users : List UserRecord) (h : ∀ r ∈ users, r.chat_id ≠ cid) :
    updatePhone cid phone users = users := by
  induction users with
  | nil => rfl
  | cons r rs ih =>
    have hr : r.chat_id ≠ cid := h r (by simp)
    simp only [updatePhone, if_neg hr]
    rw [ih (fun x hx => h x (List.mem_cons_of_mem r hx))]

/-- Lemma: `updatePhone` rewrites exactly the first matching document,
setting only its `phone_number` field. -/
theorem updatePhone_first_match (cid : Nat) (phone : String)
    (pre : List UserRecord) (r : UserRecord) (post : List UserRecord)
    (hpre : ∀ x ∈ pre, x.chat_id ≠ cid) (hr : r.chat_id = cid) :
    updatePhone cid phone (pre ++ r :: post) =
      pre ++ { r with phone_number := some phone } :: post := by
  induction pre with
  | nil => simp [updatePhone, hr]
  | cons x xs ih =>
    have hx : x.chat_id ≠ cid := hpre x (by simp)
    simp only [List.cons_append, updatePhone, if_neg hx, List.append_eq]
    rw [ih (fun y hy => hpre y (List.mem_cons_of_mem x hy))]

/-- Claim C6: `handle_contact` is an update, not an upsert. Only the `users`
collection can change and its size never does; when no user document matches
the chat id the whole store is untouched (a silent no-op); when one does, the
first matching document gets `phone_number` set to the shared number and every
other field and every other document is left exactly as it was. -/
theorem handle_contact_spec (cid : Nat) (phone : String) (db : DB) :
    (handle_contact cid phone db).2 = CONTACT_THANKS ∧
    (handle_contact cid phone db).1.chat_history = db.chat_history ∧
    (handle_contact cid phone db).1.file_analysis = db.file_analysis ∧
    (handle_contact cid phone db).1.web_search = db.web_search ∧
    (handle_contact cid phone db).1.users.length = db.users.length ∧
    ((∀ r ∈ db.users, r.chat_id ≠ cid) → (handle_contact cid phone db).1 = db) ∧
    (∀ pre r post, db.users = pre ++ r :: post →
      (∀ x ∈ pre, x.chat_id ≠ cid) → r.chat_id = cid →
      (handle_contact cid phone db).1.users =
        pre ++ { r with phone_number := some phone } :: post) := by
  refine ⟨rfl, rfl, rfl, rfl, updatePhone_length cid phone db.users, ?_, ?_⟩
  · intro h
    show ({ db with users := updatePhone cid phone db.users } : DB) = db
    rw [updatePhone_of_no_match cid phone db.users h]
  · intro pre r post hsplit hpre hr
    show updatePhone cid phone db.users = _
    rw [hsplit]
    exact updatePhone_first_match cid phone pre r post hpre hr

/-- Witness for C6: a store holding one matching user gets exactly its
`phone_number` updated. -/
theorem handle_contact_witness :
    (handle_contact 5 "123" ⟨[⟨5, "Ann", "N/A", none⟩], [], [], []⟩).1.users =
      [⟨5, "Ann", "N/A", some "123"⟩] := by
  have h := handle_contact_spec 5 "123" ⟨[⟨5, "Ann", "N/A", none⟩], [], [], []⟩
  exact h.2.2.2.2.2.2 [] ⟨5, "Ann", "N/A", none⟩ [] rfl (by simp) rfl

/-- The chat ids after an upsert: unchanged when a document already matched
(the `$set` rewrites `chat_id` to its old value), extended by the sender's id
otherwise. -/
theorem upsertUser_map_chat_id (u : TgUser) (users : List UserRecord) :
    (upsertUser u users).map UserRecord.chat_id =
      if users.any (fun r => r.chat_id = u.id) then
        users.map UserRecord.chat_id
      else users.map UserRecord.chat_id ++ [u.id] := by
  induction users with
  | nil => simp [upsertUser, startDoc]
  | cons r rs ih =>
    by_cases h : r.chat_id = u.id
    · simp [upsertUser, h, applyStartSet]
    · simp only [upsertUser, if_neg h, List.map_cons, ih, List.any_cons]
      have hd : decide (r.chat_id = u.id) = false := by simp [h]
      rw [hd, Bool.false_or]
      by_cases h2 : rs.any (fun x => x.chat_id = u.id)
      · rw [if_pos h2, if_pos h2]
      · rw [if_neg h2, if_neg h2, List.cons_append]

/-- Absence of a matching document, read off the `any` test. -/
theorem not_any_chat_id {uid : Nat} {users : List UserRecord}
    (h : users.any (fun r => r.chat_id = uid) = false) :
    uid ∉ users.map UserRecord.chat_id := by
  intro hmem
  rw [List.mem_map] at hmem
  obtain ⟨r, hr, hid⟩ := hmem
  have htrue : users.any (fun r => r.chat_id = uid) = true :=
    List.any_eq_true.mpr ⟨r, hr, by simp [hid]⟩
  rw [h] at htrue
  exact Bool.false_ne_true htrue

/-- Upserting preserves uniqueness of `chat_id` across the collection. -/
theorem upsertUser_nodup (u : TgUser) (users : List UserRecord)
    (h : (users.map UserRecord.chat_id).Nodup) :
    ((upsertUser u users).map UserRecord.chat_id).Nodup := by
  rw [upsertUser_map_chat_id]
  by_cases hany : users.any (fun r => r.chat_id = u.id)
  · rwa [if_pos hany]
  · rw [if_neg hany]
    have hnm := not_any_chat_id (Bool.eq_false_iff.mpr hany)
    simp [List.nodup_append, h, List.disjoint_singleton, hnm]

/-- After an upsert on a collection with unique chat ids, exactly one
document carries the sender's chat id. -/
theorem upsertUser_countP (u : TgUser) (users : List UserRecord)
    (h : (users.map UserRecord.chat_id).Nodup) :
    (upsertUser u users).countP (fun r => r.chat_id = u.id) = 1 := by
  induction users with
  | nil => simp [upsertUser, startDoc]
  | cons r rs ih =>
    simp only [List.map_cons, List.nodup_cons] at h
    by_cases hr : r.chat_id = u.id
    · have hzero : rs.countP (fun x => x.chat_id = u.id) = 0 := by
        rw [List.countP_eq_zero]
        intro x hx
        simp only [decide_eq_true_eq]
        intro hxid
        exact h.1 (hr ▸ hxid ▸ List.mem_map_of_mem UserRecord.chat_id hx)
      simp [upsertUser, hr, List.countP_cons, applyStartSet, hzero]
    · simp [upsertUser, hr, List.countP_cons, ih h.2]

/-- After an upsert on a collection with unique chat ids, the document
carrying the sender's chat id has the latest event's name fields. -/
theorem upsertUser_fields (u : TgUser) (users : List UserRecord)
    (h : (users.map UserRecord.chat_id).Nodup) :
    ∀ r ∈ upsertUser u users, r.chat_id = u.id →
      r.first_name = u.first_name ∧ r.username = usernameOrNA u.username := by
  induction users with
  | nil =>
    intro r hr _
    simp only [upsertUser, List.mem_singleton] at hr
    subst hr
    exact ⟨rfl, rfl⟩
  | cons x xs ih =>
    simp only [List.map_cons, List.nodup_cons] at h
    intro r hr hrid
    by_cases hx : x.chat_id = u.id
    · simp only [upsertUser, if_pos hx, List.mem_cons] at hr
      rcases hr with hr | hr
      · subst hr
        exact ⟨rfl, rfl⟩
      · exact absurd (hx ▸ hrid ▸ List.mem_map_of_mem UserRecord.chat_id hr) h.1
    · simp only [upsertUser, if_neg hx, List.mem_cons] at hr
      rcases hr with hr | hr
      · exact absurd (hr ▸ hrid) hx
      · exact ih h.2 r hr hrid

/-- Upserting the same event twice is the same as upserting it once. -/
theorem upsertUser_idem (u : TgUser) (users : List UserRecord) :
    upsertUser u (upsertUser u users) = upsertUser u users := by
  induction users with
  | nil => simp [upsertUser, startDoc, applyStartSet]
  | cons r rs ih =>
    by_cases hr : r.chat_id = u.id
    · simp [upsertUser, hr, applyStartSet]
    · simp [upsertUser, hr, ih]

/-- Claim C5: registration is an idempotent upsert keyed by `chat_id`.
Starting from a store whose chat ids are unique, a `/start` event leaves every
other collection untouched, produces exactly one user document with the
sender's chat id, keeps chat ids unique, gives that document the latest
event's `first_name`/`username`, is idempotent (processing the same event
twice equals processing it once), and after a second registration from the
same sender the document carries the latest event's fields. -/
theorem start_upsert_spec (u : TgUser) (db : DB)
    (h : (db.users.map UserRecord.chat_id).Nodup) :
    (start u db).2 = WELCOME_TEXT ∧
    (start u db).1.chat_history = db.chat_history ∧
    (start u db).1.file_analysis = db.file_analysis ∧
    (start u db).1.web_search = db.web_search ∧
    (start u db).1.users.countP (fun r => r.chat_id = u.id) = 1 ∧
    ((start u db).1.users.map UserRecord.chat_id).Nodup ∧
    (∀ r ∈ (start u db).1.users, r.chat_id = u.id →
      r.first_name = u.first_name ∧ r.username = usernameOrNA u.username) ∧
    (start u (start u db).1).1 = (start u db).1 ∧
    (∀ u2 : TgUser, u2.id = u.id →
      ∀ r ∈ (start u2 (start u db).1).1.users, r.chat_id = u2.id →
        r.first_name = u2.first_name ∧ r.username = usernameOrNA u2.username) := by
  refine ⟨rfl, rfl, rfl, rfl, upsertUser_countP u db.users h,
    upsertUser_nodup u db.users h, upsertUser_fields u db.users h, ?_, ?_⟩
  · show ({ db with users := upsertUser u (upsertUser u db.users) } : DB) = _
    rw [upsertUser_idem]
    rfl
  · intro u2 _ r hr hrid
    exact upsertUser_fields u2 (upsertUser u db.users)
      (upsertUser_nodup u db.users h) r hr hrid

/-- Witness for C5: registering a new sender into a one-user store yields
exactly one document with the sender's chat id. -/
theorem start_upsert_witness :
    (start ⟨1, "Ann", some "ann"⟩
        ⟨[⟨2, "Bob", "bob", none⟩], [], [], []⟩).1.users.countP
      (fun r => r.chat_id = 1) = 1 := by
  have h := start_upsert_spec ⟨1, "Ann", some "ann"⟩
    ⟨[⟨2, "Bob", "bob", none⟩], [], [], []⟩ (by decide)
  exact h.2.2.2.2.1

/-- The `"N/A"` substitution never yields the empty string. -/
theorem usernameOrNA_ne_empty (o : Option String) : usernameOrNA o ≠ "" := by
  cases o with
  | none => simp [usernameOrNA]
  | some s =>
    simp only [usernameOrNA]
    split_ifs with hs
    · simp
    · exact hs

/-- Every document of an upserted collection either was already there or
carries the freshly substituted username. -/
theorem mem_upsertUser_cases (u : TgUser) (users : List UserRecord)
    (r : UserRecord) (hr : r ∈ upsertUser u users) :
    r ∈ users ∨ r.username = usernameOrNA u.username := by
  induction users with
  | nil =>
    simp only [upsertUser, List.mem_singleton] at hr
    exact Or.inr (hr ▸ rfl)
  | cons x xs ih =>
    by_cases hx : x.chat_id = u.id
    · simp only [upsertUser, if_pos hx, List.mem_cons] at hr
      rcases hr with hr | hr
      · exact Or.inr (hr ▸ rfl)
      · exact Or.inl (List.mem_cons_of_mem x hr)
    · simp only [upsertUser, if_neg hx, List.mem_cons] at hr
      rcases hr with hr | hr
      · exact Or.inl (hr ▸ List.mem_cons_self x xs)
      · rcases ih hr with h0 | h0
        · exact Or.inl (List.mem_cons_of_mem x h0)
        · exact Or.inr h0

/-- Claim C9: every handler that writes a username substitutes the literal
`"N/A"` for a missing (or empty, hence falsy) username, so the invariant
"every persisted `username` field is a non-empty string" is preserved by
registration, chat reply, web search and image analysis, whatever the gateway
outcomes are. -/
theorem username_na_spec (u : TgUser) (g f : Except Unit String)
    (searchFn : String → Except Unit (List SearchResult)) (msg : String)
    (m : AttachMsg) (args : List String) (now : Nat) (db : DB)
    (h : usernamesOK db) :
    usernameOrNA none = "N/A" ∧
    (u.username = none → usernameOrNA u.username = "N/A") ∧
    usernameOrNA u.username ≠ "" ∧
    usernamesOK (start u db).1 ∧
    usernamesOK (gemini_chat g u msg now db).1 ∧
    usernamesOK (web_search searchFn u args now db).1 ∧
    (∀ db2 reply, analyze_file f g u m now db = Except.ok (db2, reply) →
      usernamesOK db2) ∧
    (∀ db2, analyze_file f g u m now db = Except.error db2 →
      usernamesOK db2) := by
  obtain ⟨hu, hc, hf, hw⟩ := h
  refine ⟨rfl, fun h0 => by rw [h0]; rfl, usernameOrNA_ne_empty u.username,
    ?_, ?_, ?_, ?_, ?_⟩
  · refine ⟨?_, hc, hf, hw⟩
    intro r hr
    rcases mem_upsertUser_cases u db.users r hr with h0 | h0
    · exact hu r h0
    · exact h0 ▸ usernameOrNA_ne_empty u.username
  · cases g with
    | error e => exact ⟨hu, hc, hf, hw⟩
    | ok t =>
      refine ⟨hu, ?_, hf, hw⟩
      intro r hr
      rcases List.mem_append.1 hr with h0 | h0
      · exact hc r h0
      · simp only [List.mem_singleton] at h0
        exact h0 ▸ usernameOrNA_ne_empty u.username
  · by_cases hq : joinArgs args = ""
    · simp only [web_search, hq, if_pos rfl]
      exact ⟨hu, hc, hf, hw⟩
    · cases hres : searchFn (joinArgs args) with
      | error e =>
        simp only [web_search, if_neg hq, hres]
        exact ⟨hu, hc, hf, hw⟩
      | ok rs =>
        simp only [web_search, if_neg hq, hres]
        refine ⟨hu, hc, hf, ?_⟩
        intro r hr
        rcases List.mem_append.1 hr with h0 | h0
        · exact hw r h0
        · simp only [List.mem_singleton] at h0
          exact h0 ▸ usernameOrNA_ne_empty u.username
  · intro db2 reply heq
    cases hcf : chooseFileId m with
    | none => simp [analyze_file, hcf] at heq
    | some fid =>
      cases f with
      | error e => simp [analyze_file, hcf] at heq
      | ok c =>
        cases g with
        | error e =>
          simp only [analyze_file, hcf, Except.ok.injEq, Prod.mk.injEq] at heq
          exact heq.1 ▸ ⟨hu, hc, hf, hw⟩
        | ok t =>
          simp only [analyze_file, hcf, Except.ok.injEq, Prod.mk.injEq] at heq
          rw [← heq.1]
          refine ⟨hu, hc, ?_, hw⟩
          intro r hr
          rcases List.mem_append.1 hr with h0 | h0
          · exact hf r h0
          · simp only [List.mem_singleton] at h0
            exact h0 ▸ usernameOrNA_ne_empty u.username
  · intro db2 heq
    cases hcf : chooseFileId m with
    | none =>
      simp only [analyze_file, hcf, Except.error.injEq] at heq
      exact heq ▸ ⟨hu, hc, hf, hw⟩
    | some fid =>
      cases f with
      | error e =>
        simp only [analyze_file, hcf, Except.error.injEq] at heq
        exact heq ▸ ⟨hu, hc, hf, hw⟩
      | ok c =>
        cases g with
        | error e => simp [analyze_file, hcf] at heq
        | ok t => simp [analyze_file, hcf] at heq

/-- Witness for C9: the invariant holds of the store produced by registering
a sender who has no username into the empty store. -/
theorem username_na_witness :
    usernamesOK (start ⟨1, "Ann", none⟩ ⟨[], [], [], []⟩).1 := by
  have h := username_na_spec ⟨1, "Ann", none⟩ (Except.ok "x") (Except.ok "y")
    (fun _ => Except.ok []) "hi" ⟨none, []⟩ [] 0 ⟨[], [], [], []⟩
    (by simp [usernamesOK])
  exact h.2.2.2.1

end TelegramBot
